import Mathlib

/-!
Shallow embedding of the tittle Telegram-bot core (`src/flask_app.py`):
the spreadsheet-import upsert engine (`process_phrases_from_xlsx`), the
per-phrase enrichment retry loop of `search_ads_task`, the clear-phrases
task (`clear_phrases_task`) and the webhook dispatcher (`webhook`).

Conventions of the embedding:
* A pandas cell is `Cell`: `blank` models a value for which `pd.notna`
  is false (NaN/None); `str`/`num` model string and numeric cells.
* The per-chat phrase table `phrases_<chat_id>` is a `List PhraseRow`,
  with `phrase` the primary key (unique within a well-formed store).
* Python exceptions are modelled by `Option`/explicit outcome values.
* External JSON search responses are `SearchResponse`; a key absent from
  the JSON decodes to the `.get(..., default)` value used by the code
  (`total` and `presetId` default to 0, `normquery` to `None`), so those
  two are carried as plain `Int` and `normquery` as `Option String`.
-/

namespace Tittle

/-- A spreadsheet cell as seen through pandas. -/
inductive Cell where
  | blank
  | str (s : String)
  | num (n : Int)
deriving Repr, DecidableEq

/-- `pd.notna(x)` on a cell. -/
def cellNotna : Cell → Bool
  | .blank => false
  | _ => true

/-- Python `str(x)` on a non-blank cell value. -/
def cellToStr : Cell → String
  | .blank => ""
  | .str s => s
  | .num n => toString n

/-- Whitespace removed by Python `str.strip()` (and ignored around
`float` literals). -/
def isSpaceChar (c : Char) : Bool :=
  c = ' ' || c = '\t' || c = '\n' || c = '\x0d' || c = '\x0b' || c = '\x0c'

/-- Python `str.strip()`: drop leading and trailing whitespace. -/
def pyStrip (s : String) : String :=
  ⟨((s.data.dropWhile isSpaceChar).reverse.dropWhile isSpaceChar).reverse⟩

/-- Characters Python `float` accepts as the integral / fractional digits. -/
def isDigitChar (c : Char) : Bool := c.isDigit

/-- Digit list to natural number, most significant first. -/
def digitsToNat (l : List Char) : Nat :=
  l.foldl (fun acc c => acc * 10 + (c.toNat - '0'.toNat)) 0

/--
Python `int(float(s))` on a string cell: accepts an optionally signed
decimal literal (digits, optionally followed by a point and digits),
surrounding whitespace stripped, and truncates toward zero; any other
string raises `ValueError`, modelled as `none`.  (The code never feeds
`inf`/`nan`/exponent literals in the behaviours claimed, so those are
outside the modelled domain.)
-/
def pyIntOfFloatString (s : String) : Option Int :=
  let t := pyStrip s
  let chars := t.data
  let (sign, rest) :=
    match chars with
    | '-' :: r => ((-1 : Int), r)
    | '+' :: r => ((1 : Int), r)
    | r => ((1 : Int), r)
  let intPart := rest.takeWhile isDigitChar
  let afterInt := rest.dropWhile isDigitChar
  let fracOk : Bool :=
    match afterInt with
    | [] => !intPart.isEmpty
    | '.' :: fr => !intPart.isEmpty && fr.all isDigitChar
    | _ => false
  if fracOk then some (sign * (digitsToNat intPart : Int)) else none

/--
`int(float(raw)) if pd.notna(raw) else 0` — the count coercion of
`process_phrases_from_xlsx`.  `none` models the `ValueError`/`TypeError`
raised on a non-numeric string.
-/
def coerceQnty : Cell → Option Int
  | .blank => some 0
  | .num n => some n
  | .str s => pyIntOfFloatString s

/-- A row of the per-chat `phrases` table. -/
structure PhraseRow where
  phrase : String
  qntyPerDay : Int
  subject : String
  preset : Int
  normQuery : Option String
  auto : Int
  auction : Int
  total : Int
deriving Repr, DecidableEq

/-- `db.session.get(PhraseModel, phrase)`: primary-key lookup. -/
def findPhrase (store : List PhraseRow) (p : String) : Option PhraseRow :=
  store.find? (fun r => r.phrase = p)

/-- Deleting the record keyed by `p` (the primary key is unique). -/
def erasePhrase (store : List PhraseRow) (p : String) : List PhraseRow :=
  store.filter (fun r => r.phrase ≠ p)

/-- A fresh record as built by the import: enrichment fields at defaults. -/
def freshRow (phrase : String) (qnty : Int) (subject : String) : PhraseRow :=
  { phrase := phrase, qntyPerDay := qnty, subject := subject,
    preset := 0, normQuery := none, auto := 0, auction := 0, total := 0 }

/-- Outcome of one row of the import loop. -/
inductive RowOutcome where
  | skippedEmpty
  | rowError
  | addedNew
  | replaced
deriving Repr, DecidableEq

/--
One iteration of the `for index, row in data_slice.iterrows()` body of
`process_phrases_from_xlsx`: trim the phrase (empty → skip), coerce the
count (failure → per-row `ValueError`, row skipped after rollback), trim
the subject, then insert a fresh record or delete-and-reinsert.
-/
def processRow (store : List PhraseRow) (pc qc sc : Cell) :
    List PhraseRow × RowOutcome :=
  let phrase := if cellNotna pc then pyStrip (cellToStr pc) else ""
  if phrase = "" then
    (store, .skippedEmpty)
  else
    match coerceQnty qc with
    | none => (store, .rowError)
    | some qnty =>
      let subject := if cellNotna sc then pyStrip (cellToStr sc) else ""
      match findPhrase store phrase with
      | none => (store ++ [freshRow phrase qnty subject], .addedNew)
      | some _ =>
          (erasePhrase store phrase ++ [freshRow phrase qnty subject],
           .replaced)

/-- The tabular data handed to the upsert engine (`df`). -/
structure DataFrame where
  ncols : Nat
  rows : List (List Cell)
deriving Repr, DecidableEq

/-- Result of `process_phrases_from_xlsx`. -/
inductive ImportOutcome where
  /-- The `ValueError` raised when `len(df.columns) < 6`. -/
  | insufficientColumns (found : Nat) (required : Nat)
  /-- Normal return `(phrases_added, phrases_updated, processed_count)`. -/
  | ok (added : Nat) (updated : Nat) (processed : Nat)
deriving Repr, DecidableEq

/-- Cell of a row at a fixed column position (rows of a well-formed
frame carry `ncols` cells, so the default is never consulted there). -/
def cellAt (row : List Cell) (i : Nat) : Cell := row.getD i .blank

/-- The import loop over the sliced rows, threading the store and the
three counters. -/
def importLoop (store : List PhraseRow) (rows : List (List Cell))
    (added updated processed : Nat) :
    List PhraseRow × Nat × Nat × Nat :=
  match rows with
  | [] => (store, added, updated, processed)
  | row :: rest =>
    let (store', outcome) := processRow store (cellAt row 0) (cellAt row 3)
      (cellAt row 5)
    match outcome with
    | .addedNew => importLoop store' rest (added + 1) updated (processed + 1)
    | .replaced => importLoop store' rest added (updated + 1) (processed + 1)
    | _ => importLoop store' rest added updated (processed + 1)

/--
`process_phrases_from_xlsx(df, chat_id)` acting on the chat's phrase
store: required column positions 0 (phrase), 3 (count), 5 (subject);
fail before touching the store if the frame has fewer than 6 columns;
otherwise process the rows one by one setting
`(phrases_added, phrases_updated, processed_count)`.
-/
def process_phrases_from_xlsx (df : DataFrame) (store : List PhraseRow) :
    List PhraseRow × ImportOutcome :=
  let maxRequiredIdx := 5
  if maxRequiredIdx ≥ df.ncols then
    (store, .insufficientColumns df.ncols (maxRequiredIdx + 1))
  else if df.rows.length = 0 then
    (store, .ok 0 0 0)
  else
    let (store', added, updated, processed) := importLoop store df.rows 0 0 0
    (store', .ok added updated processed)

/-! ### The enrichment retry loop of `search_ads_task` -/

/-- A product entry of the search response; `tp` is
`product.get("log", {}).get("tp")` (absent → `none`). -/
structure Product where
  tp : Option String
deriving Repr, DecidableEq

/-- The decoded JSON of one search call, as read by the code:
`total = response_data.get("total", 0)`,
`presetId = metadata.get("presetId", 0)`,
`normquery = metadata.get("normquery")`, `products`. -/
structure SearchResponse where
  total : Int
  presetId : Int
  normquery : Option String
  products : List Product
deriving Repr, DecidableEq

/-- What one `requests.get` + `response.json()` attempt yields: either a
decoded response or an exception (`RequestException`, `JSONDecodeError`
or any other), which `break`s the loop. -/
inductive FetchResult where
  | ok (r : SearchResponse)
  | exc
deriving Repr, DecidableEq

/-- How the per-phrase `while` loop of `search_ads_task` ends.
`attempts` counts the external fetch attempts performed. -/
inductive RetryResult where
  /-- `success = True`: `r` is the accepted response. -/
  | success (r : SearchResponse) (attempts : Nat)
  /-- An exception `break`: `success` stays `False`. -/
  | aborted (attempts : Nat)
  /-- The `while` condition failed with `success` still `False`:
  `total_retries = 5` and `preset_retries = 3`. -/
  | exhausted (attempts : Nat)
deriving Repr, DecidableEq

def max_total_retries : Nat := 5
def max_preset_retries : Nat := 3

/--
The body of
`while not success and (total_retries < max_total_retries or
preset_retries < max_preset_retries)` in `search_ads_task`, for one
phrase.  `fetch n` is the outcome of the (n+1)-th external attempt;
`attempt` counts attempts already made, `tr`/`pr` are
`total_retries`/`preset_retries`.
-/
def retryLoop (fetch : Nat → FetchResult) (attempt tr pr : Nat) :
    RetryResult :=
  if tr < max_total_retries ∨ pr < max_preset_retries then
    match fetch attempt with
    | .exc => .aborted (attempt + 1)
    | .ok r =>
      if h1 : r.total = 0 ∧ tr < max_total_retries then
        retryLoop fetch (attempt + 1) (tr + 1) pr
      else if h2 : r.presetId = 0 ∧ pr < max_preset_retries then
        retryLoop fetch (attempt + 1) tr (pr + 1)
      else
        .success r (attempt + 1)
  else
    .exhausted attempt
termination_by (max_total_retries - tr) + (max_preset_retries - pr)
decreasing_by
  · omega
  · omega

/-- The loop as entered by `search_ads_task`: both counters at 0. -/
def searchAdsRetry (fetch : Nat → FetchResult) : RetryResult :=
  retryLoop fetch 0 0 0

/-- Number of products whose classification tag equals `t`. -/
def countTp (products : List Product) (t : String) : Nat :=
  (products.filter (fun p => p.tp = some t)).length

/-- The successful-response update of `search_ads_task`: write
`auction`, `auto`, `total`, `normQuery`, `preset` from the response,
leaving the other fields of the record alone. -/
def updateEnrichment (row : PhraseRow) (r : SearchResponse) : PhraseRow :=
  { row with
    auction := countTp r.products "c",
    auto := countTp r.products "b",
    total := r.total,
    normQuery := r.normquery,
    preset := r.presetId }

/-- Fate of one phrase in `search_ads_task`. -/
inductive PhraseOutcome where
  /-- committed and counted in `updated_count` -/
  | updated
  /-- appended to `errors` and skipped (`if not success: ... continue`) -/
  | failed
deriving Repr, DecidableEq

/-- Per-phrase processing of `search_ads_task`: run the retry loop; on
success write the five enrichment fields, otherwise record the phrase as
failed and leave it unchanged. -/
def processPhrase (row : PhraseRow) (fetch : Nat → FetchResult) :
    PhraseRow × PhraseOutcome :=
  match searchAdsRetry fetch with
  | .success r _ => (updateEnrichment row r, .updated)
  | _ => (row, .failed)

/-- The fetch-attempt count of a finished loop. -/
def RetryResult.attemptCount : RetryResult → Nat
  | .success _ n => n
  | .aborted n => n
  | .exhausted n => n

/-! ### `clear_phrases_task` -/

/-- What the clear task reports to the user. -/
inductive ClearOutcome where
  /-- `count_before == 0`: notify "already empty" and return. -/
  | alreadyEmpty
  /-- bulk delete: notify with the deleted count. -/
  | cleared (deletedCount : Nat)
deriving Repr, DecidableEq

/-- `clear_phrases_task(chat_id)` acting on the chat's phrase store:
count, no-op with a notice when empty, otherwise bulk-delete all rows
and report how many went. -/
def clear_phrases_task (store : List PhraseRow) :
    List PhraseRow × ClearOutcome :=
  if store.length = 0 then
    (store, .alreadyEmpty)
  else
    ([], .cleared store.length)

/-- Deleted-row count reported by a clear outcome (0 for the no-op). -/
def ClearOutcome.deleted : ClearOutcome → Nat
  | .alreadyEmpty => 0
  | .cleared n => n

/-! ### The webhook handler -/

/-- The 3-row table of the end-to-end import example, with the phrase at
column 0, the count at column 3 and the subject at column 5. -/
def dfC1 : DataFrame :=
  ⟨6, [[.str "shoes", .blank, .blank, .str "100", .blank, .str "footwear"],
       [.str "", .blank, .blank, .str "5", .blank, .str "x"],
       [.str "hats", .blank, .blank, .str "bad", .blank, .str "accessories"]]⟩

/-- A sample stored phrase record, already enriched. -/
def testRow : PhraseRow :=
  { phrase := "shoes", qntyPerDay := 5, subject := "x",
    preset := 9, normQuery := some "nq", auto := 2, auction := 3,
    total := 4 }

/-- An endpoint whose every response reports `total = 0` and
`presetId = 0`. -/
def zeroFetch : Nat → FetchResult :=
  fun _ => .ok ⟨0, 0, none, []⟩

/-- An endpoint whose every response reports `total = 0` with a nonzero
preset. -/
def totalZeroFetch : Nat → FetchResult :=
  fun _ => .ok ⟨0, 7, some "q", []⟩

/-- An endpoint reporting `presetId = 0` (nonzero total) on the first
two calls and a fully nonzero response on the third. -/
def presetSeqFetch : Nat → FetchResult :=
  fun n => if n < 2 then .ok ⟨9, 0, none, []⟩ else .ok ⟨9, 4, some "x", []⟩

/-- A fully successful first response with three tagged products. -/
def respC10 : SearchResponse :=
  ⟨9, 4, some "nq", [⟨some "c"⟩, ⟨some "b"⟩, ⟨some "c"⟩, ⟨none⟩,
    ⟨some "z"⟩]⟩

/-- An endpoint answering `respC10` immediately. -/
def fetchC10 : Nat → FetchResult := fun _ => .ok respC10

/-! ### Unfolding lemmas for the retry loop

`retryLoop` is defined by well-founded recursion, so concrete runs and
inductive arguments go through these one-step equations. -/

/-- When the `while` condition fails the loop exits with `success`
still false. -/
theorem retryLoop_exhausted (fetch : Nat → FetchResult) (a tr pr : Nat)
    (h : ¬(tr < max_total_retries ∨ pr < max_preset_retries)) :
    retryLoop fetch a tr pr = .exhausted a := by
  rw [retryLoop]
  simp [h]

/-- An exception during the fetch breaks the loop. -/
theorem retryLoop_exc (fetch : Nat → FetchResult) (a tr pr : Nat)
    (hcond : tr < max_total_retries ∨ pr < max_preset_retries)
    (ha : fetch a = .exc) :
    retryLoop fetch a tr pr = .aborted (a + 1) := by
  rw [retryLoop]
  simp [hcond, ha]

/-- A `total == 0` response with total-retry budget left retries. -/
theorem retryLoop_step_total (fetch : Nat → FetchResult) (a tr pr : Nat)
    (r : SearchResponse) (ha : fetch a = .ok r) (ht : r.total = 0)
    (htr : tr < max_total_retries) :
    retryLoop fetch a tr pr = retryLoop fetch (a + 1) (tr + 1) pr := by
  rw [retryLoop]
  simp [Or.inl htr, ha, ht, htr]

/-- A `preset == 0` response not retried for total, with preset-retry
budget left, retries. -/
theorem retryLoop_step_preset (fetch : Nat → FetchResult) (a tr pr : Nat)
    (r : SearchResponse) (ha : fetch a = .ok r)
    (hnt : ¬(r.total = 0 ∧ tr < max_total_retries))
    (hp : r.presetId = 0) (hpr : pr < max_preset_retries) :
    retryLoop fetch a tr pr = retryLoop fetch (a + 1) tr (pr + 1) := by
  rw [retryLoop]
  simp [Or.inr hpr, ha, hnt, hp, hpr]

/-- A response triggering neither retry condition is accepted. -/
theorem retryLoop_accept (fetch : Nat → FetchResult) (a tr pr : Nat)
    (r : SearchResponse) (ha : fetch a = .ok r)
    (hcond : tr < max_total_retries ∨ pr < max_preset_retries)
    (hnt : ¬(r.total = 0 ∧ tr < max_total_retries))
    (hnp : ¬(r.presetId = 0 ∧ pr < max_preset_retries)) :
    retryLoop fetch a tr pr = .success r (a + 1) := by
  rw [retryLoop]
  simp [hcond, ha, hnt, hnp]

/-- Bound on the attempts the loop can still make from a given state:
each iteration spends one unit of one of the two budgets, or is final. -/
theorem retryLoop_attemptCount_le (fetch : Nat → FetchResult) :
    ∀ fuel a tr pr,
      (max_total_retries - tr) + (max_preset_retries - pr) ≤ fuel →
      (retryLoop fetch a tr pr).attemptCount ≤
        a + (max_total_retries - tr) + (max_preset_retries - pr) := by
  intro fuel
  induction fuel with
  | zero =>
    intro a tr pr h
    have hc : ¬(tr < max_total_retries ∨ pr < max_preset_retries) := by
      simp only [max_total_retries, max_preset_retries] at h ⊢
      omega
    rw [retryLoop_exhausted fetch a tr pr hc]
    simp only [RetryResult.attemptCount]
    omega
  | succ n ih =>
    intro a tr pr h
    by_cases hc : tr < max_total_retries ∨ pr < max_preset_retries
    · have hpos : 1 ≤ (max_total_retries - tr) + (max_preset_retries - pr) := by
        simp only [max_total_retries, max_preset_retries] at hc ⊢
        omega
      cases hfa : fetch a with
      | exc =>
        rw [retryLoop_exc fetch a tr pr hc hfa]
        simp only [RetryResult.attemptCount]
        omega
      | ok r =>
        by_cases h1 : r.total = 0 ∧ tr < max_total_retries
        · rw [retryLoop_step_total fetch a tr pr r hfa h1.1 h1.2]
          have hfuel : (max_total_retries - (tr + 1)) +
              (max_preset_retries - pr) ≤ n := by
            have := h1.2
            simp only [max_total_retries, max_preset_retries] at this h ⊢
            omega
          have := ih (a + 1) (tr + 1) pr hfuel
          have htr := h1.2
          simp only [max_total_retries, max_preset_retries] at this htr ⊢
          omega
        · by_cases h2 : r.presetId = 0 ∧ pr < max_preset_retries
          · rw [retryLoop_step_preset fetch a tr pr r hfa h1 h2.1 h2.2]
            have hfuel : (max_total_retries - tr) +
                (max_preset_retries - (pr + 1)) ≤ n := by
              have := h2.2
              simp only [max_total_retries, max_preset_retries] at this h ⊢
              omega
            have := ih (a + 1) tr (pr + 1) hfuel
            have hpr := h2.2
            simp only [max_total_retries, max_preset_retries] at this hpr ⊢
            omega
          · rw [retryLoop_accept fetch a tr pr r hfa hc h1 h2]
            simp only [RetryResult.attemptCount]
            omega
    · rw [retryLoop_exhausted fetch a tr pr hc]
      simp only [RetryResult.attemptCount]
      omega

/-! ### Claim theorems -/

/-- C1 (counterexample): the 3-row example table does not produce the
claimed `added = 2, updated = 0, total_processed = 2` with 2 persisted
rows — the non-numeric count "bad" raises a per-row error that skips
the row, and `processed_count` counts skipped rows too. -/
theorem C1_counterexample :
    (process_phrases_from_xlsx dfC1 []).2 ≠ ImportOutcome.ok 2 0 2 ∧
    (process_phrases_from_xlsx dfC1 []).1.length ≠ 2 := by
  constructor <;> decide

/-- C1 (amended): importing the 3-row table persists exactly one row —
`shoes` with `qntyPerDay = 100` — and returns `added = 1, updated = 0,
total_processed = 3`: the empty-phrase row is skipped, the row with the
non-numeric count "bad" is skipped by the per-row `ValueError` handler
(only a missing count is coerced to zero), and every row, skipped or
not, counts toward `processed_count`. -/
theorem C1_import_example :
    process_phrases_from_xlsx dfC1 [] =
      ([freshRow "shoes" 100 "footwear"], .ok 1 0 3) ∧
    coerceQnty Cell.blank = some 0 ∧
    coerceQnty (Cell.str "bad") = none := by
  refine ⟨by decide, rfl, by decide⟩

/-- C2 (counterexample): with an endpoint always answering
`total = 0, preset = 0`, both retry budgets are exhausted (8 attempts),
the loop exits without success and the phrase is recorded as failed
with its record unchanged — the last fetched attempt's data is *not*
accepted and written, contrary to the claim. -/
theorem C2_counterexample :
    searchAdsRetry zeroFetch = .exhausted 8 ∧
    processPhrase testRow zeroFetch = (testRow, .failed) := by
  have h : searchAdsRetry zeroFetch = .exhausted 8 := by
    simp [searchAdsRetry, retryLoop, zeroFetch, max_total_retries,
      max_preset_retries]
  exact ⟨h, by unfold processPhrase; rw [h]⟩

/-- C2 (amended): whenever the per-phrase retry loop ends with both
budgets exhausted (`success` still false), `search_ads_task` records
the phrase as failed and leaves its record unchanged; no response data
is written. -/
theorem C2_exhaustion_fails_phrase (row : PhraseRow)
    (fetch : Nat → FetchResult) (n : Nat)
    (h : searchAdsRetry fetch = .exhausted n) :
    processPhrase row fetch = (row, .failed) := by
  unfold processPhrase
  rw [h]

/-- C2 witness: the amended behaviour at the always-zero endpoint and
a concrete un-enriched record. -/
theorem C2_witness :
    searchAdsRetry zeroFetch = .exhausted 8 ∧
    processPhrase (freshRow "w" 1 "s") zeroFetch =
      (freshRow "w" 1 "s", .failed) := by
  have h : searchAdsRetry zeroFetch = .exhausted 8 := by
    simp [searchAdsRetry, retryLoop, zeroFetch, max_total_retries,
      max_preset_retries]
  exact ⟨h, C2_exhaustion_fails_phrase (freshRow "w" 1 "s") zeroFetch 8 h⟩

/-- C3: re-importing a row whose trimmed phrase is already stored
deletes the existing record and inserts a fresh one carrying the new
`qntyPerDay` and `subject`, with every enrichment field (`preset`,
`normQuery`, `auto`, `auction`, `total`) back at its default, and the
run reports `updated = 1, added = 0`. -/
theorem C3_reimport_resets (store : List PhraseRow) (p q s : String)
    (qv : Int) (old : PhraseRow)
    (hp : pyStrip p ≠ "")
    (hq : pyIntOfFloatString q = some qv)
    (hfind : findPhrase store (pyStrip p) = some old) :
    process_phrases_from_xlsx
        ⟨6, [[.str p, .blank, .blank, .str q, .blank, .str s]]⟩ store =
      (erasePhrase store (pyStrip p) ++
        [freshRow (pyStrip p) qv (pyStrip s)], .ok 0 1 1) ∧
    (freshRow (pyStrip p) qv (pyStrip s)).preset = 0 ∧
    (freshRow (pyStrip p) qv (pyStrip s)).normQuery = none ∧
    (freshRow (pyStrip p) qv (pyStrip s)).auto = 0 ∧
    (freshRow (pyStrip p) qv (pyStrip s)).auction = 0 ∧
    (freshRow (pyStrip p) qv (pyStrip s)).total = 0 ∧
    (freshRow (pyStrip p) qv (pyStrip s)).qntyPerDay = qv ∧
    (freshRow (pyStrip p) qv (pyStrip s)).subject = pyStrip s := by
  refine ⟨?_, rfl, rfl, rfl, rfl, rfl, rfl, rfl⟩
  unfold process_phrases_from_xlsx
  simp [importLoop, processRow, cellAt, cellNotna, cellToStr, coerceQnty,
    hp, hq, hfind]

/-- C3 witness: re-importing `shoes` over an enriched record replaces
it with a default-enrichment record carrying the new count and
subject. -/
theorem C3_witness :
    pyStrip "shoes" ≠ "" ∧
    pyIntOfFloatString "7" = some 7 ∧
    findPhrase [testRow] (pyStrip "shoes") = some testRow ∧
    (process_phrases_from_xlsx
        ⟨6, [[.str "shoes", .blank, .blank, .str "7", .blank,
          .str " new "]]⟩ [testRow] =
      (erasePhrase [testRow] (pyStrip "shoes") ++
        [freshRow (pyStrip "shoes") 7 (pyStrip " new ")], .ok 0 1 1) ∧
    (freshRow (pyStrip "shoes") 7 (pyStrip " new ")).preset = 0 ∧
    (freshRow (pyStrip "shoes") 7 (pyStrip " new ")).normQuery = none ∧
    (freshRow (pyStrip "shoes") 7 (pyStrip " new ")).auto = 0 ∧
    (freshRow (pyStrip "shoes") 7 (pyStrip " new ")).auction = 0 ∧
    (freshRow (pyStrip "shoes") 7 (pyStrip " new ")).total = 0 ∧
    (freshRow (pyStrip "shoes") 7 (pyStrip " new ")).qntyPerDay = 7 ∧
    (freshRow (pyStrip "shoes") 7 (pyStrip " new ")).subject =
      pyStrip " new ") := by
  refine ⟨by decide, by decide, by decide, ?_⟩
  exact C3_reimport_resets [testRow] "shoes" "7" " new " 7 testRow
    (by decide) (by decide) (by decide)

/-- C4 (counterexample): with an endpoint always answering `total = 0`
and a nonzero preset, the retry loop performs 6 fetch attempts, not the
claimed 5, before accepting the last response. -/
theorem C4_counterexample :
    searchAdsRetry totalZeroFetch = .success ⟨0, 7, some "q", []⟩ 6 ∧
    (searchAdsRetry totalZeroFetch).attemptCount ≠ 5 := by
  have h : searchAdsRetry totalZeroFetch =
      .success ⟨0, 7, some "q", []⟩ 6 := by
    simp [searchAdsRetry, retryLoop, totalZeroFetch, max_total_retries,
      max_preset_retries]
  exact ⟨h, by rw [h]; decide⟩

/-- C4 (amended): if every response reports `total = 0` with a nonzero
preset, the loop performs exactly 6 attempts — 5 total-retries plus one
final fetch admitted because the preset budget is untouched — and
accepts the 6th response's data. -/
theorem C4_totalZero_six_attempts (fetch : Nat → FetchResult)
    (h : ∀ n, n < 6 → ∃ r, fetch n = .ok r ∧ r.total = 0 ∧
      r.presetId ≠ 0) :
    ∃ r, fetch 5 = .ok r ∧ searchAdsRetry fetch = .success r 6 := by
  obtain ⟨r0, f0, t0, p0⟩ := h 0 (by omega)
  obtain ⟨r1, f1, t1, p1⟩ := h 1 (by omega)
  obtain ⟨r2, f2, t2, p2⟩ := h 2 (by omega)
  obtain ⟨r3, f3, t3, p3⟩ := h 3 (by omega)
  obtain ⟨r4, f4, t4, p4⟩ := h 4 (by omega)
  obtain ⟨r5, f5, t5, p5⟩ := h 5 (by omega)
  refine ⟨r5, f5, ?_⟩
  unfold searchAdsRetry
  rw [retryLoop_step_total fetch 0 0 0 r0 f0 t0 (by decide)]
  rw [retryLoop_step_total fetch 1 1 0 r1 f1 t1 (by decide)]
  rw [retryLoop_step_total fetch 2 2 0 r2 f2 t2 (by decide)]
  rw [retryLoop_step_total fetch 3 3 0 r3 f3 t3 (by decide)]
  rw [retryLoop_step_total fetch 4 4 0 r4 f4 t4 (by decide)]
  rw [retryLoop_accept fetch 5 5 0 r5 f5 (Or.inr (by decide))
    (by simp [max_total_retries]) (fun hc => p5 hc.1)]

/-- C4 witness: the amended count at the constant `total = 0`,
`preset = 7` endpoint. -/
theorem C4_witness :
    (∀ n, n < 6 → ∃ r, totalZeroFetch n = .ok r ∧ r.total = 0 ∧
      r.presetId ≠ 0) ∧
    ∃ r, totalZeroFetch 5 = .ok r ∧
      searchAdsRetry totalZeroFetch = .success r 6 := by
  have h : ∀ n, n < 6 → ∃ r, totalZeroFetch n = .ok r ∧ r.total = 0 ∧
      r.presetId ≠ 0 :=
    fun n _ => ⟨⟨0, 7, some "q", []⟩, rfl, rfl, by decide⟩
  exact ⟨h, C4_totalZero_six_attempts totalZeroFetch h⟩

/-- C5: a table with fewer than 6 columns makes
`process_phrases_from_xlsx` fail with the insufficient-columns error
before any row is processed, leaving the store untouched. -/
theorem C5_insufficient_columns (df : DataFrame) (store : List PhraseRow)
    (h : df.ncols < 6) :
    process_phrases_from_xlsx df store =
      (store, .insufficientColumns df.ncols 6) := by
  unfold process_phrases_from_xlsx
  rw [if_pos (by omega)]

/-- C5 witness: a 5-column frame over a nonempty store errors and
leaves the store as it was. -/
theorem C5_witness :
    (5 : Nat) < 6 ∧
    process_phrases_from_xlsx ⟨5, []⟩ [testRow] =
      ([testRow], .insufficientColumns 5 6) :=
  ⟨by decide, C5_insufficient_columns ⟨5, []⟩ [testRow] (by decide)⟩

/-- C7: with `preset = 0` (nonzero total) on the first two calls and a
fully nonzero response on the third, the retry loop stops after exactly
3 attempts and accepts the third response. -/
theorem C7_preset_stops_at_three (fetch : Nat → FetchResult)
    (r0 r1 r2 : SearchResponse)
    (f0 : fetch 0 = .ok r0) (t0 : r0.total ≠ 0) (p0 : r0.presetId = 0)
    (f1 : fetch 1 = .ok r1) (t1 : r1.total ≠ 0) (p1 : r1.presetId = 0)
    (f2 : fetch 2 = .ok r2) (t2 : r2.total ≠ 0) (p2 : r2.presetId ≠ 0) :
    searchAdsRetry fetch = .success r2 3 := by
  unfold searchAdsRetry
  rw [retryLoop_step_preset fetch 0 0 0 r0 f0 (fun hc => t0 hc.1) p0
    (by decide)]
  rw [retryLoop_step_preset fetch 1 0 1 r1 f1 (fun hc => t1 hc.1) p1
    (by decide)]
  rw [retryLoop_accept fetch 2 0 2 r2 f2 (Or.inl (by decide))
    (fun hc => t2 hc.1) (fun hc => p2 hc.1)]

/-- C7 witness: the 3-attempt stop at the concrete two-then-good
endpoint. -/
theorem C7_witness :
    presetSeqFetch 0 = .ok ⟨9, 0, none, []⟩ ∧
    presetSeqFetch 1 = .ok ⟨9, 0, none, []⟩ ∧
    presetSeqFetch 2 = .ok ⟨9, 4, some "x", []⟩ ∧
    searchAdsRetry presetSeqFetch = .success ⟨9, 4, some "x", []⟩ 3 := by
  refine ⟨rfl, rfl, rfl, ?_⟩
  exact C7_preset_stops_at_three presetSeqFetch ⟨9, 0, none, []⟩
    ⟨9, 0, none, []⟩ ⟨9, 4, some "x", []⟩ rfl (by decide) rfl rfl
    (by decide) rfl rfl (by decide) (by decide)

/-- C8: clearing an empty phrase store deletes nothing (deleted count
0), leaves the store unchanged and reports it already empty; clearing
right after any clear always lands in that no-op case, so the
operation is idempotent. -/
theorem C8_clear_empty_idempotent :
    clear_phrases_task [] = ([], .alreadyEmpty) ∧
    ClearOutcome.deleted (clear_phrases_task []).2 = 0 ∧
    ∀ s : List PhraseRow,
      clear_phrases_task (clear_phrases_task s).1 =
        ((clear_phrases_task s).1, .alreadyEmpty) := by
  refine ⟨rfl, rfl, ?_⟩
  intro s
  cases s with
  | nil => rfl
  | cons a t => simp [clear_phrases_task]

/-- C9: the per-phrase retry loop always terminates, and performs at
most 8 external fetch attempts: each iteration increments one of the
two bounded counters (bounds 5 and 3), accepts the response, or breaks
on an exception. -/
theorem C9_at_most_eight_attempts (fetch : Nat → FetchResult) :
    (searchAdsRetry fetch).attemptCount ≤ 8 := by
  have h := retryLoop_attemptCount_le fetch 8 0 0 0 (by decide)
  simpa [searchAdsRetry, max_total_retries, max_preset_retries] using h

/-- C10: a successful enrichment writes exactly the five fields
`auction` (count of products tagged `tp = "c"`), `auto` (count tagged
`tp = "b"`), `total`, `normQuery` and `preset` from the accepted
response, leaving `phrase`, `qntyPerDay` and `subject` unchanged. -/
theorem C10_enrichment_frame (row : PhraseRow) (fetch : Nat → FetchResult)
    (r : SearchResponse) (n : Nat)
    (h : searchAdsRetry fetch = .success r n) :
    processPhrase row fetch =
      ({ row with auction := countTp r.products "c",
                  auto := countTp r.products "b",
                  total := r.total,
                  normQuery := r.normquery,
                  preset := r.presetId }, .updated) ∧
    (updateEnrichment row r).phrase = row.phrase ∧
    (updateEnrichment row r).qntyPerDay = row.qntyPerDay ∧
    (updateEnrichment row r).subject = row.subject ∧
    (updateEnrichment row r).auction = countTp r.products "c" ∧
    (updateEnrichment row r).auto = countTp r.products "b" := by
  refine ⟨?_, rfl, rfl, rfl, rfl, rfl⟩
  unfold processPhrase
  rw [h]
  rfl

/-- C10 witness: the frame property at an immediately successful
endpoint whose product list carries two "c" tags and one "b" tag. -/
theorem C10_witness :
    searchAdsRetry fetchC10 = .success respC10 1 ∧
    (processPhrase testRow fetchC10 =
      ({ testRow with auction := countTp respC10.products "c",
                      auto := countTp respC10.products "b",
                      total := respC10.total,
                      normQuery := respC10.normquery,
                      preset := respC10.presetId }, .updated) ∧
    (updateEnrichment testRow respC10).phrase = testRow.phrase ∧
    (updateEnrichment testRow respC10).qntyPerDay = testRow.qntyPerDay ∧
    (updateEnrichment testRow respC10).subject = testRow.subject ∧
    (updateEnrichment testRow respC10).auction =
      countTp respC10.products "c" ∧
    (updateEnrichment testRow respC10).auto =
      countTp respC10.products "b") := by
  have h : searchAdsRetry fetchC10 = .success respC10 1 := by
    simp [searchAdsRetry, retryLoop, fetchC10, respC10, max_total_retries,
      max_preset_retries]
  exact ⟨h, C10_enrichment_frame testRow fetchC10 respC10 1 h⟩

end Tittle
